import Mathlib

/-!
Shallow embedding of the xtomate logger plugin (src/lib.rs) together with
theorems checking the natural-language specification against it.

The embedding models:
- the log level enumeration with its derived order (declaration order);
- the process-wide configuration store (the nine mutable statics);
- the filesystem visible to the plugin as a finite map from file names to
  file contents (an association list), with stat / read_dir / remove /
  rename semantics;
- the three entry points: `configure` (the Rust `initialize`), `execute`
  (emit) and `teardown` (shutdown).

Panics raised by the Rust code (via unwrap or expect) are modelled
explicitly: a function that can panic returns the panic case as data
(a Bool flag or an `Except.error`), never by silently taking another
branch. External nondeterminism (clock readings, OS-level open and write
failures) enters as explicit parameters.
-/

/-- Log levels of the plugin; the Rust enum derives PartialOrd and Ord, so
the order is declaration order: Debug < Info < Warn < Error. -/
inductive LogLevel : Type
  | Debug
  | Info
  | Warn
  | Error
deriving DecidableEq, Repr

/-- Numeric rank of a level, the derived Rust discriminant order. -/
def LogLevel.toNat : LogLevel → Nat
  | .Debug => 0
  | .Info => 1
  | .Warn => 2
  | .Error => 3

/-- Boolean strict comparison on levels, matching the derived Rust Ord. -/
def LogLevel.ltb (a b : LogLevel) : Bool :=
  a.toNat < b.toNat

/-- Display form of a level (the Display impl in src/lib.rs). -/
def LogLevel.display : LogLevel → String
  | .Debug => "DEBUG"
  | .Info => "INFO"
  | .Warn => "WARN"
  | .Error => "ERROR"

/-- Case-insensitive parse of a level (the FromStr impl in src/lib.rs);
unknown text is a parse failure. -/
def LogLevel.fromStr (s : String) : Option LogLevel :=
  match s.toLower with
  | "info" => some .Info
  | "debug" => some .Debug
  | "warn" => some .Warn
  | "error" => some .Error
  | _ => none

/-- The nine process-wide mutable statics of src/lib.rs, gathered into one
record (APP_NAME, LOG_FILE, LOG_TO_FILE, LOG_TO_CONSOLE, MIN_LOG_LEVEL,
MAX_LOG_FILE_SIZE, MAX_LOG_FILE_COUNT, ENABLE_LOG_ROTATION,
LOG_TO_FILE_COLORED). -/
structure Store : Type where
  app_name : String
  log_file : String
  log_to_file : Bool
  log_to_console : Bool
  min_log_level : LogLevel
  max_log_file_size : Nat
  max_log_file_count : Nat
  enable_log_rotation : Bool
  log_to_file_colored : Bool
deriving DecidableEq, Repr

/-- Initial values of the statics (the LazyLock initializers). -/
def initialStore : Store :=
  { app_name := ""
    log_file := ""
    log_to_file := false
    log_to_console := false
    min_log_level := .Info
    max_log_file_size := 10 * 1024 * 1024
    max_log_file_count := 5
    enable_log_rotation := true
    log_to_file_colored := false }

/-- Byte-wise (for ASCII: character-wise) lexicographic order on character
lists, the order Rust uses when sorting a Vec of Strings. -/
def charListLeb : List Char → List Char → Bool
  | [], _ => true
  | _ :: _, [] => false
  | a :: as, b :: bs =>
    if a.toNat < b.toNat then true
    else if b.toNat < a.toNat then false
    else charListLeb as bs

/-- Lexicographic order on strings (the Rust String Ord used by sort). -/
def strLeb (a b : String) : Bool :=
  charListLeb a.data b.data

/-- Lexicographic order on strings as a relation, for sorting. -/
def strLe (a b : String) : Prop :=
  strLeb a b = true

instance : DecidableRel strLe := fun a b => by
  unfold strLe; infer_instance

/-- Prefix test on strings (Rust str::starts_with). -/
def strStartsWith (s p : String) : Bool :=
  List.isPrefixOf p.data s.data

/-- The filesystem visible to the plugin: a finite map from file names to
file contents, kept as an association list with distinct keys looked up
front to back. All files live in the working directory, so a name is both
the path handed to stat, rename, open and remove and the file_name tested
by the read_dir filter. -/
abbrev Fs : Type :=
  List (String × String)

/-- Contents of a file, none when the file does not exist (stat or open of
a missing file fails). -/
def Fs.lookup (fs : Fs) (name : String) : Option String :=
  match fs with
  | [] => none
  | (n, c) :: rest => if n = name then some c else Fs.lookup rest name

/-- Delete a file; deleting a missing file changes nothing (the Rust call
site swallows the error with unwrap_or). -/
def Fs.removeFile (fs : Fs) (name : String) : Fs :=
  match fs with
  | [] => []
  | (n, c) :: rest =>
    if n = name then Fs.removeFile rest name
    else (n, c) :: Fs.removeFile rest name

/-- Create or overwrite a file with the given content. -/
def Fs.setFile (fs : Fs) (name content : String) : Fs :=
  (name, content) :: Fs.removeFile fs name

/-- File names the read_dir enumeration yields. -/
def Fs.names (fs : Fs) : List String :=
  fs.map (fun e => e.1)

/-- Size in bytes that stat reports for a content string. -/
def fileSize (content : String) : Nat :=
  content.utf8ByteSize

/-- Default for log_file when absent from the configuration payload. -/
def default_log_file : String :=
  "default.log"

/-- Default for log_to_file when absent from the payload. -/
def default_log_to_file : Bool :=
  true

/-- Default for log_to_console when absent from the payload. -/
def default_log_to_console : Bool :=
  true

/-- Default for minimum_log_level when absent from the payload; also the
serde default for the level of an execution input record. -/
def default_minimum_log_level : LogLevel :=
  .Info

/-- Default for max_log_file_size when absent from the payload (10 MB). -/
def default_max_log_file_size : Nat :=
  10 * 1024 * 1024

/-- Default for max_log_file_count when absent from the payload. -/
def default_max_log_file_count : Nat :=
  5

/-- Default for enable_log_rotation when absent from the payload. -/
def default_enable_log_rotation : Bool :=
  true

/-- Default for log_to_file_colored when absent from the payload. -/
def default_log_to_file_colored : Bool :=
  true

/-- A fully parsed configuration payload (struct PluginConfig). -/
structure PluginConfig : Type where
  app_name : String
  log_file : String
  log_to_file : Bool
  log_to_console : Bool
  minimum_log_level : LogLevel
  max_log_file_size : Nat
  max_log_file_count : Nat
  enable_log_rotation : Bool
  log_to_file_colored : Bool
deriving DecidableEq, Repr

/-- A configuration payload as it arrives over the wire: app_name is
required, every other field may be absent. -/
structure PluginConfigPayload : Type where
  app_name : String
  log_file : Option String
  log_to_file : Option Bool
  log_to_console : Option Bool
  minimum_log_level : Option LogLevel
  max_log_file_size : Option Nat
  max_log_file_count : Option Nat
  enable_log_rotation : Option Bool
  log_to_file_colored : Option Bool
deriving DecidableEq, Repr

/-- Deserialization of a payload into a PluginConfig, applying the serde
default functions to every absent optional field. -/
def PluginConfig.ofPayload (p : PluginConfigPayload) : PluginConfig :=
  { app_name := p.app_name
    log_file := p.log_file.getD default_log_file
    log_to_file := p.log_to_file.getD default_log_to_file
    log_to_console := p.log_to_console.getD default_log_to_console
    minimum_log_level := p.minimum_log_level.getD default_minimum_log_level
    max_log_file_size := p.max_log_file_size.getD default_max_log_file_size
    max_log_file_count := p.max_log_file_count.getD default_max_log_file_count
    enable_log_rotation := p.enable_log_rotation.getD default_enable_log_rotation
    log_to_file_colored := p.log_to_file_colored.getD default_log_to_file_colored }

/-- The configure entry point (Rust initialize in src/lib.rs). Its argument
is the outcome of serde_json parsing of the payload: none when parsing
fails. The Rust code calls .unwrap() on that result, so a parse failure
panics; the panic is the Except.error case and the store is then left
untouched. On success every field of the store is replaced and 0 is
returned. -/
def configure (parsed : Option PluginConfig) (s : Store) : Store × Except Unit Int :=
  match parsed with
  | none => (s, .error ())
  | some c =>
    ({ app_name := c.app_name
       log_file := c.log_file
       log_to_file := c.log_to_file
       log_to_console := c.log_to_console
       min_log_level := c.minimum_log_level
       max_log_file_size := c.max_log_file_size
       max_log_file_count := c.max_log_file_count
       enable_log_rotation := c.enable_log_rotation
       log_to_file_colored := c.log_to_file_colored },
     .ok 0)

/-- Archive name built by rotation: the log file path, an underscore, the
UTC timestamp formatted %Y-%m-%d_%H-%M-%S, and the suffix .log. -/
def archive_name (log_file ts : String) : String :=
  log_file ++ "_" ++ ts ++ ".log"

/-- Candidate files the rotation prune step considers: read_dir of the
working directory, keeping files whose name starts with the literal string
"log", sorted (Vec::sort, lexicographic). -/
def candidate_log_files (fs : Fs) : List String :=
  List.insertionSort strLe ((Fs.names fs).filter (fun n => strStartsWith n "log"))

/-- Prune step of rotation: when the number of candidates is at least
MAX_LOG_FILE_COUNT, Vec::remove(0) takes the first (smallest) candidate —
panicking (none) when the vector is empty — and fs::remove_file deletes
it, any deletion error being swallowed by unwrap_or(()). -/
def prune_oldest (s : Store) (fs : Fs) : Option Fs :=
  let cands := candidate_log_files fs
  if s.max_log_file_count ≤ cands.length then
    match cands with
    | [] => none
    | oldest :: _ => some (Fs.removeFile fs oldest)
  else some fs

/-- The rotate_log_file function of src/lib.rs, acting on the filesystem;
ts is the formatted current UTC time. The Bool is the panic flag: true
when a .unwrap() in the function fails (Vec::remove on an empty vector, or
fs::rename of a missing source). Control flow mirrors the source: return
if rotation is disabled; stat the log file and do nothing if that fails;
do nothing if the size is not above MAX_LOG_FILE_SIZE; otherwise prune,
then rename the log file to its archive name. -/
def rotate_log_file (s : Store) (fs : Fs) (ts : String) : Fs × Bool :=
  if s.enable_log_rotation = false then (fs, false)
  else
    match Fs.lookup fs s.log_file with
    | none => (fs, false)
    | some content =>
      if s.max_log_file_size < fileSize content then
        match prune_oldest s fs with
        | none => (fs, true)
        | some fs1 =>
          match Fs.lookup fs1 s.log_file with
          | none => (fs1, true)
          | some current =>
            (Fs.setFile (Fs.removeFile fs1 s.log_file) (archive_name s.log_file ts) current,
             false)
      else (fs, false)

/-- ANSI color decoration, the colored crate treated as a pure string
decoration function: wrap the text in an escape sequence chosen by the
color code. -/
def colorWrap (code text : String) : String :=
  "\x1b[" ++ code ++ "m" ++ text ++ "\x1b[0m"

/-- Color attached to a level tag by execute: Debug blue, Info green,
Warn yellow, Error red. -/
def levelColored (l : LogLevel) : String :=
  match l with
  | .Debug => colorWrap "34" l.display
  | .Info => colorWrap "32" l.display
  | .Warn => colorWrap "33" l.display
  | .Error => colorWrap "31" l.display

/-- A parsed execution input record (struct ExecutionInput); level carries
the serde default Info when absent from the payload. -/
structure ExecutionInput : Type where
  message : String
  level : LogLevel
  app_name : Option String
  sub_app_name : Option String
deriving DecidableEq, Repr

/-- Effective app name of a record: the configured APP_NAME, replaced
wholesale by an override when present, then suffixed with an arrow and the
sub app name when present. -/
def resolve_app_name (s : Store) (inp : ExecutionInput) : String :=
  let base :=
    match inp.app_name with
    | some o => o
    | none => s.app_name
  match inp.sub_app_name with
  | some sub => base ++ " -> " ++ sub
  | none => base

/-- Decorated log line: bright red timestamp, per-severity level tag, cyan
app name, white message. -/
def colored_log_message (ts : String) (l : LogLevel) (app msg : String) : String :=
  "[" ++ colorWrap "91" ts ++ "] [" ++ levelColored l ++ "] "
    ++ colorWrap "36" app ++ ": " ++ colorWrap "37" msg

/-- Plain log line written when LOG_TO_FILE_COLORED is off: same field
order, no escape sequences. -/
def plain_log_message (ts : String) (l : LogLevel) (app msg : String) : String :=
  "[" ++ ts ++ "] [" ++ l.display ++ "] " ++ app ++ ": " ++ msg

/-- Outcome the operating system gives to the open-then-write performed on
the log file by one execute call: both succeed, the open fails (the
.expect panics), or the open succeeds and the write fails. -/
inductive FileOutcome : Type
  | ok
  | openFail
  | writeFail
deriving DecidableEq, Repr

/-- Everything observable about one execute call: the store afterwards,
the filesystem afterwards, the lines printed to standard output, the lines
printed to standard error, and the returned status — Except.error marking
a panic instead of a return. -/
structure ExecResult : Type where
  store : Store
  fs : Fs
  console : List String
  errlog : List String
  ret : Except Unit Int

/-- The execute entry point of src/lib.rs. The parsed argument is the
serde_json outcome for the record payload (none = parse failure, which the
.unwrap() turns into a panic). ts is the chrono Utc::now string used in
the log line, tsRot the formatted time rotation would use, outcome the OS
behaviour of the open and write. Control flow mirrors the source: parse;
suppress below MIN_LOG_LEVEL with status 0; resolve the app name; build
the decorated line; print it when LOG_TO_CONSOLE; when LOG_TO_FILE, rotate
(propagating its panic), open (panicking on openFail), then append the
decorated or plain line, a write failure printing to stderr and returning
-1; finally status 0. -/
def execute (s : Store) (fs : Fs) (parsed : Option ExecutionInput)
    (ts tsRot : String) (outcome : FileOutcome) : ExecResult :=
  match parsed with
  | none => ⟨s, fs, [], [], .error ()⟩
  | some inp =>
    if LogLevel.ltb inp.level s.min_log_level then ⟨s, fs, [], [], .ok 0⟩
    else
      let app := resolve_app_name s inp
      let log_message := colored_log_message ts inp.level app inp.message
      let console := if s.log_to_console then [log_message] else []
      if s.log_to_file then
        match rotate_log_file s fs tsRot with
        | (fs1, true) => ⟨s, fs1, console, [], .error ()⟩
        | (fs1, false) =>
          match outcome with
          | .openFail => ⟨s, fs1, console, [], .error ()⟩
          | .writeFail =>
            ⟨s, fs1, console, ["Failed to write to log file"], .ok (-1)⟩
          | .ok =>
            let line :=
              if s.log_to_file_colored then log_message
              else plain_log_message ts inp.level app inp.message
            let old := (Fs.lookup fs1 s.log_file).getD ""
            ⟨s, Fs.setFile fs1 s.log_file (old ++ line ++ "\n"), console, [], .ok 0⟩
      else ⟨s, fs, console, [], .ok 0⟩

/-- The teardown entry point (Rust teardown in src/lib.rs): clears APP_NAME
and LOG_FILE, sets LOG_TO_FILE and LOG_TO_CONSOLE to false, returns 0. It
touches no other static. -/
def teardown (s : Store) : Store × Int :=
  ({ s with
      app_name := ""
      log_file := ""
      log_to_file := false
      log_to_console := false },
   0)

/-! Concrete stores, payloads and filesystems used by the theorems below. -/

/-- Store used as the concrete input refuting C5. -/
def teardown_cx_store : Store :=
  ⟨"svc", "svc.log", true, true, .Error, 0, 7, false, true⟩

/-- Configuration used by the C7 witness. -/
def suppress_cfg : PluginConfig :=
  ⟨"svc", "svc.log", true, true, .Info, 100, 2, true, true⟩

/-- Record used by the C7 witness. -/
def suppress_inp : ExecutionInput :=
  ⟨"hello", .Debug, none, none⟩

/-- Store used by the C3 theorem: rotation enabled, log file named "log",
threshold 1 byte, retention count 1. -/
def rotate_panic_store : Store :=
  ⟨"svc", "log", true, false, .Info, 1, 1, true, false⟩

/-- Store used by the C4 theorems: file output on, rotation off. -/
def write_fail_store : Store :=
  ⟨"svc", "svc.log", true, true, .Info, 100, 5, false, false⟩

/-- Record used by the C4 theorems. -/
def write_fail_inp : ExecutionInput :=
  ⟨"hello", .Info, none, none⟩

/-- Store used by the C6 counterexample: the default log file name,
retention count 2. -/
def candidates_cx_store : Store :=
  ⟨"svc", "default.log", true, false, .Info, 10, 2, true, false⟩

/-- Filesystem used by the C6 counterexample: an oversized active log file
plus three archives carrying its prefix. -/
def candidates_cx_fs : Fs :=
  [("default.log", "0123456789ab"),
   ("default.log_2024-01-01_00-00-00.log", "a"),
   ("default.log_2024-01-02_00-00-00.log", "b"),
   ("default.log_2024-01-03_00-00-00.log", "c")]

/-- Store used by the C6 witness. -/
def prune_w_store : Store :=
  ⟨"svc", "log_a.log", true, false, .Info, 10, 1, true, false⟩

/-- Filesystem used by the C6 witness: two archives with the literal
candidate prefix. -/
def prune_w_fs : Fs :=
  [("log_b.log", "x"), ("log_a.log", "y")]

/-- Store used by the C8 counterexample: the log file name itself starts
with "log" and the retention count is 1. -/
def rotate_cx_store : Store :=
  ⟨"svc", "log.txt", true, false, .Info, 3, 1, true, false⟩

/-- Store used by the C8 witness. -/
def rotate_w_store : Store :=
  ⟨"svc", "app.txt", true, false, .Info, 2, 5, true, false⟩

/-! Helper lemmas about the string order and the filesystem map. -/

theorem charListLeb_total : ∀ (a b : List Char),
    charListLeb a b = true ∨ charListLeb b a = true
  | [], [] => Or.inl rfl
  | [], _ :: _ => Or.inl rfl
  | _ :: _, [] => Or.inr rfl
  | a :: as, b :: bs => by
    simp only [charListLeb]
    rcases Nat.lt_trichotomy a.toNat b.toNat with h | h | h
    · left
      simp [h]
    · have h1 : ¬ a.toNat < b.toNat := by omega
      have h2 : ¬ b.toNat < a.toNat := by omega
      simp only [if_neg h1, if_neg h2]
      exact charListLeb_total as bs
    · right
      simp [h]

theorem charListLeb_refl : ∀ (a : List Char), charListLeb a a = true
  | [] => rfl
  | a :: as => by
    have h : ¬ a.toNat < a.toNat := by omega
    simp only [charListLeb, if_neg h]
    exact charListLeb_refl as

theorem charListLeb_trans : ∀ (a b c : List Char),
    charListLeb a b = true → charListLeb b c = true → charListLeb a c = true
  | [], _, _, _, _ => rfl
  | _ :: _, [], _, h1, _ => by simp [charListLeb] at h1
  | _ :: _, _ :: _, [], _, h2 => by simp [charListLeb] at h2
  | a :: as, b :: bs, c :: cs, h1, h2 => by
    simp only [charListLeb] at h1 h2 ⊢
    by_cases hab : a.toNat < b.toNat
    · by_cases hbc : b.toNat < c.toNat
      · have hac : a.toNat < c.toNat := Nat.lt_trans hab hbc
        simp [hac]
      · by_cases hcb : c.toNat < b.toNat
        · rw [if_neg hbc, if_pos hcb] at h2
          exact absurd h2 (by simp)
        · have hac : a.toNat < c.toNat := by omega
          simp [hac]
    · by_cases hba : b.toNat < a.toNat
      · rw [if_neg hab, if_pos hba] at h1
        exact absurd h1 (by simp)
      · by_cases hbc : b.toNat < c.toNat
        · have hac : a.toNat < c.toNat := by omega
          simp [hac]
        · by_cases hcb : c.toNat < b.toNat
          · rw [if_neg hbc, if_pos hcb] at h2
            exact absurd h2 (by simp)
          · have hac : ¬ a.toNat < c.toNat := by omega
            have hca : ¬ c.toNat < a.toNat := by omega
            rw [if_neg hab, if_neg hba] at h1
            rw [if_neg hbc, if_neg hcb] at h2
            rw [if_neg hac, if_neg hca]
            exact charListLeb_trans as bs cs h1 h2

theorem strLe_refl (a : String) : strLe a a :=
  charListLeb_refl a.data

instance : IsTotal String strLe :=
  ⟨fun a b => charListLeb_total a.data b.data⟩

instance : IsTrans String strLe :=
  ⟨fun a b c h1 h2 => charListLeb_trans a.data b.data c.data h1 h2⟩

theorem Fs.lookup_removeFile_self (fs : Fs) (name : String) :
    Fs.lookup (Fs.removeFile fs name) name = none := by
  induction fs with
  | nil => rfl
  | cons e rest ih =>
    obtain ⟨n, c⟩ := e
    by_cases h : n = name <;> simp [Fs.removeFile, Fs.lookup, h, ih]

theorem Fs.lookup_removeFile_ne (fs : Fs) (other name : String) (h : other ≠ name) :
    Fs.lookup (Fs.removeFile fs other) name = Fs.lookup fs name := by
  induction fs with
  | nil => rfl
  | cons e rest ih =>
    obtain ⟨n, c⟩ := e
    by_cases hn : n = other
    · subst hn
      simp [Fs.removeFile, Fs.lookup, h, ih]
    · by_cases hm : n = name <;>
        simp [Fs.removeFile, Fs.lookup, hn, hm, ih, Ne.symm h]

theorem Fs.lookup_setFile_self (fs : Fs) (name content : String) :
    Fs.lookup (Fs.setFile fs name content) name = some content := by
  simp [Fs.setFile, Fs.lookup]

theorem archive_name_length (f ts : String) :
    (archive_name f ts).length = f.length + ts.length + 5 := by
  simp [archive_name, String.length_append]
  have h1 : ("_" : String).length = 1 := rfl
  have h2 : (".log" : String).length = 4 := rfl
  omega

theorem archive_name_ne (f ts : String) : archive_name f ts ≠ f := by
  intro h
  have hlen := congrArg String.length h
  rw [archive_name_length] at hlen
  omega

/-! Theorems about the claims of the specification. -/

/-- C1: the specification says configure returns a nonzero status on a
payload that fails to parse and never terminates the host; the code
instead calls .unwrap() on the serde result, so a parse failure panics
(modelled as Except.error, aborting the call) and the function can only
ever return 0 — there is no nonzero status path at all. -/
theorem configure_parse_failure_panics :
    (configure none initialStore).2 = Except.error ()
      ∧ ∀ (p : Option PluginConfig) (s : Store),
          (configure p s).2 = Except.error () ∨ (configure p s).2 = Except.ok 0 := by
  refine ⟨rfl, ?_⟩
  intro p s
  cases p with
  | none => exact Or.inl rfl
  | some c => exact Or.inr rfl

/-- C2: the specification says a malformed record payload is surfaced to
the caller of emit as a failure signal with no output; the code calls
.unwrap() on the serde result, so the call panics (Except.error) rather
than returning a failure status — no output is produced and the store and
filesystem are untouched, but no status reaches the caller. -/
theorem execute_parse_failure_panics :
    ∀ (s : Store) (fs : Fs) (ts tsRot : String) (o : FileOutcome),
      execute s fs none ts tsRot o = ⟨s, fs, [], [], Except.error ()⟩ :=
  fun _ _ _ _ _ => rfl

/-- C9: deserializing a configuration payload in which every optional
field is absent yields exactly the documented defaults, and configuring
with it installs them in the store. -/
theorem configure_all_defaults (name : String) (s : Store) :
    configure (some (PluginConfig.ofPayload
        ⟨name, none, none, none, none, none, none, none, none⟩)) s =
      (⟨name, "default.log", true, true, LogLevel.Info, 10 * 1024 * 1024, 5, true, true⟩,
       Except.ok 0) :=
  rfl

/-- C10: every execute call leaves the whole configuration store exactly
as it was — whether the record is suppressed, printed, written, or the
call panics on a parse, open, write or rotation failure — so only
configure and teardown ever modify the store. -/
theorem execute_preserves_store :
    ∀ (s : Store) (fs : Fs) (p : Option ExecutionInput) (ts tsRot : String)
      (o : FileOutcome), (execute s fs p ts tsRot o).store = s := by
  intro s fs p ts tsRot o
  cases p with
  | none => rfl
  | some inp =>
    unfold execute
    dsimp only
    repeat' first
      | rfl
      | split

/-- C5 counterexample: shutdown does not reset every field — starting from
a store whose level is Error, size 0 and count 7, the fields are still
Error, 0 and 7 afterwards, while their reset values (the initial statics,
equally the payload defaults for level, size and count) are Info,
10485760 and 5. -/
theorem teardown_not_full_reset :
    (teardown teardown_cx_store).1.min_log_level = LogLevel.Error
      ∧ (teardown teardown_cx_store).1.min_log_level ≠ initialStore.min_log_level
      ∧ (teardown teardown_cx_store).1.max_log_file_size ≠ initialStore.max_log_file_size
      ∧ (teardown teardown_cx_store).1.max_log_file_count ≠ initialStore.max_log_file_count := by
  refine ⟨rfl, ?_, ?_, ?_⟩ <;> decide

/-- C5 amended: teardown clears the app name and log file, disables both
destinations and returns 0, and is idempotent; the minimum level, maximum
file size, maximum file count, rotation flag and color flag keep whatever
values they had. -/
theorem teardown_spec (s : Store) :
    (teardown s).2 = 0
      ∧ (teardown s).1.app_name = ""
      ∧ (teardown s).1.log_file = ""
      ∧ (teardown s).1.log_to_file = false
      ∧ (teardown s).1.log_to_console = false
      ∧ (teardown s).1.min_log_level = s.min_log_level
      ∧ (teardown s).1.max_log_file_size = s.max_log_file_size
      ∧ (teardown s).1.max_log_file_count = s.max_log_file_count
      ∧ (teardown s).1.enable_log_rotation = s.enable_log_rotation
      ∧ (teardown s).1.log_to_file_colored = s.log_to_file_colored
      ∧ teardown (teardown s).1 = teardown s :=
  ⟨rfl, rfl, rfl, rfl, rfl, rfl, rfl, rfl, rfl, rfl, rfl⟩

/-- C7: after configuring the minimum level to l2, emitting a well formed
record at any strictly lower level l1 writes nothing to the console,
leaves the filesystem untouched (in particular performs no rotation),
prints nothing to stderr and returns 0. -/
theorem emit_below_min_suppressed
    (l1 l2 : LogLevel) (c : PluginConfig) (s0 : Store) (fs : Fs)
    (inp : ExecutionInput) (ts tsRot : String) (o : FileOutcome)
    (hlt : LogLevel.ltb l1 l2 = true)
    (hc : c.minimum_log_level = l2) (hl : inp.level = l1) :
    execute (configure (some c) s0).1 fs (some inp) ts tsRot o =
      ⟨(configure (some c) s0).1, fs, [], [], Except.ok 0⟩ := by
  have hmin : LogLevel.ltb inp.level (configure (some c) s0).1.min_log_level = true := by
    rw [hl]
    show LogLevel.ltb l1 c.minimum_log_level = true
    rw [hc]
    exact hlt
  unfold execute
  simp [hmin]

/-- C7 witness: a Debug record against a configured Info minimum is
suppressed with status 0 and no output. -/
theorem emit_below_min_suppressed_witness :
    execute (configure (some suppress_cfg) initialStore).1 [] (some suppress_inp)
        "t" "t2" FileOutcome.ok =
      ⟨(configure (some suppress_cfg) initialStore).1, [], [], [], Except.ok 0⟩ :=
  emit_below_min_suppressed .Debug .Info suppress_cfg initialStore [] suppress_inp
    "t" "t2" FileOutcome.ok (by decide) rfl rfl

/-- C3: a filesystem error during the rotation rename is fatal, contrary
to the claim — here the prune step removes the oversized "log" file itself
(its name starts with the literal candidate prefix and sorts first), the
subsequent fs::rename finds no source and fails, and the .unwrap() panics,
so the emit call aborts without ever attempting the append write. -/
theorem rotate_rename_failure_panics :
    rotate_log_file rotate_panic_store [("log", "abcde")] "2024-01-01_00-00-00" = ([], true)
      ∧ (execute rotate_panic_store [("log", "abcde")]
            (some ⟨"hello", .Info, none, none⟩) "t" "2024-01-01_00-00-00"
            FileOutcome.ok).ret = Except.error () := by
  exact ⟨rfl, rfl⟩

/-- C4 counterexample: with file output enabled, a failure to open the log
file is not reported as -1 — the .expect() panics, so the call aborts
(Except.error) instead of returning a status. -/
theorem emit_open_failure_not_minus_one :
    (execute write_fail_store [] (some write_fail_inp) "t" "t2"
        FileOutcome.openFail).ret = Except.error ()
      ∧ (execute write_fail_store [] (some write_fail_inp) "t" "t2"
          FileOutcome.openFail).ret ≠ Except.ok (-1) :=
  ⟨rfl, fun h => Except.noConfusion h⟩

/-- C4 amended: with file output enabled and the record not suppressed, a
failure to write the line is reported to the caller as -1 and a message is
printed to standard error (a channel distinct from both the console output
and the log file, neither of which receives the line), without crashing;
a failure to open the log file, by contrast, panics. -/
theorem emit_write_failure_reports
    (s : Store) (fs fs1 : Fs) (inp : ExecutionInput) (ts tsRot : String)
    (hfile : s.log_to_file = true)
    (hlev : LogLevel.ltb inp.level s.min_log_level = false)
    (hrot : rotate_log_file s fs tsRot = (fs1, false)) :
    execute s fs (some inp) ts tsRot .writeFail =
      ⟨s, fs1,
       (if s.log_to_console then
          [colored_log_message ts inp.level (resolve_app_name s inp) inp.message]
        else []),
       ["Failed to write to log file"], Except.ok (-1)⟩ := by
  unfold execute
  simp [hlev, hfile, hrot]

/-- C4 witness: a concrete write failure returns -1 with the stderr
message while the console line still goes out. -/
theorem emit_write_failure_reports_witness :
    execute write_fail_store [] (some write_fail_inp) "t" "t2" FileOutcome.writeFail =
      ⟨write_fail_store, [],
       (if write_fail_store.log_to_console then
          [colored_log_message "t" write_fail_inp.level
            (resolve_app_name write_fail_store write_fail_inp) write_fail_inp.message]
        else []),
       ["Failed to write to log file"], Except.ok (-1)⟩ :=
  emit_write_failure_reports write_fail_store [] [] write_fail_inp "t" "t2"
    rfl (by decide) rfl

/-- C6 counterexample: with max_file_count = 2 and three pre-existing
archives bearing the configured log file prefix, rotation fires yet
enumerates no candidate and deletes nothing — the code filters directory
entries by the literal prefix "log", not by the configured name, so the
lexicographically smallest archive survives the rotation. -/
theorem rotation_candidates_cx :
    candidate_log_files candidates_cx_fs = []
      ∧ Fs.lookup (rotate_log_file candidates_cx_store candidates_cx_fs
          "2024-06-01_12-00-00").1 "default.log_2024-01-01_00-00-00.log" = some "a"
      ∧ (rotate_log_file candidates_cx_store candidates_cx_fs "2024-06-01_12-00-00").2
          = false := by
  exact ⟨rfl, rfl, rfl⟩

/-- C6 amended: the candidates rotation enumerates are exactly the files
of the working directory whose names begin with the literal string "log"
(whatever log file is configured), in lexicographic order; and whenever
their number is at or above the retention count, the prune step deletes
exactly the first of them, which is lexicographically smallest. -/
theorem prune_removes_smallest_candidate
    (s : Store) (fs : Fs) (x : String) (rest : List String)
    (hc : candidate_log_files fs = x :: rest)
    (hn : s.max_log_file_count ≤ (x :: rest).length) :
    prune_oldest s fs = some (Fs.removeFile fs x)
      ∧ (∀ y ∈ candidate_log_files fs, strLe x y)
      ∧ (∀ n, n ∈ candidate_log_files fs ↔
          (n ∈ Fs.names fs ∧ strStartsWith n "log" = true))
      ∧ List.Sorted strLe (candidate_log_files fs) := by
  have hsorted : List.Sorted strLe (candidate_log_files fs) :=
    List.sorted_insertionSort strLe _
  refine ⟨?_, ?_, ?_, hsorted⟩
  · unfold prune_oldest
    rw [hc, if_pos hn]
  · intro y hy
    rw [hc] at hy hsorted
    rcases List.mem_cons.mp hy with h | h
    · subst h
      exact strLe_refl y
    · exact (List.sorted_cons.mp hsorted).1 y h
  · intro n
    unfold candidate_log_files
    rw [(List.perm_insertionSort strLe _).mem_iff, List.mem_filter]

/-- C6 witness: with two candidates and retention count 1, the prune step
deletes log_a.log, the lexicographically smallest candidate. -/
theorem prune_removes_smallest_candidate_witness :
    prune_oldest prune_w_store prune_w_fs = some (Fs.removeFile prune_w_fs "log_a.log")
      ∧ (∀ y ∈ candidate_log_files prune_w_fs, strLe "log_a.log" y)
      ∧ (∀ n, n ∈ candidate_log_files prune_w_fs ↔
          (n ∈ Fs.names prune_w_fs ∧ strStartsWith n "log" = true))
      ∧ List.Sorted strLe (candidate_log_files prune_w_fs) :=
  prune_removes_smallest_candidate prune_w_store prune_w_fs "log_a.log" ["log_b.log"]
    (by decide) (by decide)

/-- C8 counterexample: the file size exceeds the threshold, yet the
current log file is not renamed to its timestamped archive — the prune
step deletes the active file itself (its name starts with "log" and it is
the only candidate), the rename then fails and the .unwrap() panics, so no
archive with the prescribed name exists afterwards. -/
theorem rotate_threshold_no_rename_cx :
    rotate_log_file rotate_cx_store [("log.txt", "abcd")] "2024-06-01_12-00-00" = ([], true)
      ∧ Fs.lookup (rotate_log_file rotate_cx_store [("log.txt", "abcd")]
          "2024-06-01_12-00-00").1 (archive_name "log.txt" "2024-06-01_12-00-00") = none := by
  exact ⟨rfl, rfl⟩

/-- C8 amended: the rotation check is a no-op when rotation is disabled,
when the log file is absent, or when its size does not exceed the
threshold; when the size exceeds the threshold and the prune step has left
the active log file in place, the file is renamed to
archive_name log_file ts (the original name, an underscore, the formatted
UTC timestamp, and ".log"), the archive holding exactly the prior content
and the original name existing no more; but when the prune step has
deleted the active log file itself, the rename panics. -/
theorem rotate_spec (s : Store) (fs : Fs) (ts : String) :
    (s.enable_log_rotation = false → rotate_log_file s fs ts = (fs, false))
      ∧ (Fs.lookup fs s.log_file = none → rotate_log_file s fs ts = (fs, false))
      ∧ (∀ content, Fs.lookup fs s.log_file = some content →
          fileSize content ≤ s.max_log_file_size → rotate_log_file s fs ts = (fs, false))
      ∧ (∀ content fs1, s.enable_log_rotation = true →
          Fs.lookup fs s.log_file = some content →
          s.max_log_file_size < fileSize content →
          prune_oldest s fs = some fs1 →
          Fs.lookup fs1 s.log_file = some content →
          rotate_log_file s fs ts =
              (Fs.setFile (Fs.removeFile fs1 s.log_file) (archive_name s.log_file ts)
                content, false)
            ∧ Fs.lookup (rotate_log_file s fs ts).1 (archive_name s.log_file ts)
              = some content
            ∧ Fs.lookup (rotate_log_file s fs ts).1 s.log_file = none)
      ∧ (∀ content fs1, s.enable_log_rotation = true →
          Fs.lookup fs s.log_file = some content →
          s.max_log_file_size < fileSize content →
          prune_oldest s fs = some fs1 →
          Fs.lookup fs1 s.log_file = none →
          rotate_log_file s fs ts = (fs1, true)) := by
  refine ⟨?_, ?_, ?_, ?_, ?_⟩
  · intro h
    unfold rotate_log_file
    simp [h]
  · intro h
    unfold rotate_log_file
    rw [h]
    simp
  · intro content h hle
    unfold rotate_log_file
    rw [h]
    have : ¬ s.max_log_file_size < fileSize content := by omega
    simp [this]
  · intro content fs1 hen h hsz hpr hkeep
    have hrot : rotate_log_file s fs ts =
        (Fs.setFile (Fs.removeFile fs1 s.log_file) (archive_name s.log_file ts)
          content, false) := by
      unfold rotate_log_file
      rw [hen, h, hpr]
      simp only [Bool.true_eq_false, if_false, if_pos hsz]
      rw [hkeep]
    refine ⟨hrot, ?_, ?_⟩
    · rw [hrot]
      exact Fs.lookup_setFile_self _ _ _
    · rw [hrot]
      show Fs.lookup (Fs.setFile (Fs.removeFile fs1 s.log_file)
        (archive_name s.log_file ts) content) s.log_file = none
      unfold Fs.setFile
      show (if archive_name s.log_file ts = s.log_file then some content
        else Fs.lookup (Fs.removeFile (Fs.removeFile fs1 s.log_file)
          (archive_name s.log_file ts)) s.log_file) = none
      rw [if_neg (archive_name_ne s.log_file ts)]
      rw [Fs.lookup_removeFile_ne _ _ _ (archive_name_ne s.log_file ts)]
      exact Fs.lookup_removeFile_self fs1 s.log_file
  · intro content fs1 hen h hsz hpr hgone
    unfold rotate_log_file
    rw [hen, h, hpr]
    simp only [Bool.true_eq_false, if_false, if_pos hsz]
    rw [hgone]

/-- C8 witness: an oversized three byte file over a two byte threshold is
renamed to its timestamped archive, whose content is the prior content,
while the original name is gone. -/
theorem rotate_spec_witness :
    rotate_log_file rotate_w_store [("app.txt", "abc")] "2024-06-01_12-00-00" =
        (Fs.setFile (Fs.removeFile [("app.txt", "abc")] "app.txt")
          (archive_name "app.txt" "2024-06-01_12-00-00") "abc", false)
      ∧ Fs.lookup (rotate_log_file rotate_w_store [("app.txt", "abc")]
          "2024-06-01_12-00-00").1 (archive_name "app.txt" "2024-06-01_12-00-00")
          = some "abc"
      ∧ Fs.lookup (rotate_log_file rotate_w_store [("app.txt", "abc")]
          "2024-06-01_12-00-00").1 "app.txt" = none :=
  (rotate_spec rotate_w_store [("app.txt", "abc")] "2024-06-01_12-00-00").2.2.2.1
    "abc" [("app.txt", "abc")] rfl rfl (by decide) rfl rfl
